import Mathlib

/-!
Verification of the diario export downloader (src/download_export.py).

Each routine the claims touch is shallowly embedded as an executable Lean
definition.  Browser and filesystem interactions are oracles: an environment
record carries the outcome every external query would return (element lookups,
visibility checks, click results, navigation results, save results), and a run
of a routine is then a pure function of its environment.  Where a routine has
observable actions (clicks, listener registrations, file saves) the embedding
also returns the trace of those actions in program order.
-/

namespace Diario

/-
===========================================================================
Retention manager: cleanup_old_exports (download_export.py lines 1134-1168)
===========================================================================
-/

/-- An export artifact on disk: an identifier standing for its path, and its
modification time in seconds. -/
structure EFile where
  name : Nat
  mtime : Int
deriving DecidableEq, Repr

/-- One insertion step of a stable sort by descending mtime.  The new element
`f` (earlier in the original list) is placed before the first element whose
mtime is at most `f`'s, so equal mtimes keep their original order, as
Python's stable `list.sort(key=..., reverse=True)` does. -/
def insertByMtimeDesc (f : EFile) : List EFile → List EFile
  | [] => [f]
  | g :: gs => if g.mtime ≤ f.mtime then f :: g :: gs else g :: insertByMtimeDesc f gs

/-- `export_files.sort(key=lambda f: f.stat().st_mtime, reverse=True)`
(line 1146): sort by modification time, newest first. -/
def sortByMtimeDesc : List EFile → List EFile
  | [] => []
  | f :: fs => insertByMtimeDesc f (sortByMtimeDesc fs)

/-- Seconds in a day; `timedelta(days=keep_days)` is `keepDays * 86400`
seconds. -/
def secondsPerDay : Int := 86400

/-- `cleanup_old_exports(data_dir, keep_days)` (lines 1134-1168), returning
the list of files it unlinks.  If at most one export file exists it returns
early (lines 1142-1143); otherwise it sorts newest-first (line 1146) and
deletes every file strictly older than `now - keep_days` that is not the
element at index 0 of the sorted list (line 1156). -/
def cleanupOldExports (files : List EFile) (now keepDays : Int) : List EFile :=
  if files.length ≤ 1 then []
  else
    match sortByMtimeDesc files with
    | [] => []
    | newest :: rest =>
      (newest :: rest).filter
        (fun f => decide (f.mtime < now - keepDays * secondsPerDay) && decide (f ≠ newest))

theorem mem_insertByMtimeDesc (a f : EFile) (l : List EFile) :
    a ∈ insertByMtimeDesc f l ↔ a = f ∨ a ∈ l := by
  induction l with
  | nil => simp [insertByMtimeDesc]
  | cons g gs ih =>
    by_cases h : g.mtime ≤ f.mtime
    · simp [insertByMtimeDesc, h]
    · simp [insertByMtimeDesc, h, ih]
      tauto

theorem mem_sortByMtimeDesc (a : EFile) (l : List EFile) :
    a ∈ sortByMtimeDesc l ↔ a ∈ l := by
  induction l with
  | nil => simp [sortByMtimeDesc]
  | cons f fs ih => simp [sortByMtimeDesc, mem_insertByMtimeDesc, ih]

theorem length_insertByMtimeDesc (f : EFile) (l : List EFile) :
    (insertByMtimeDesc f l).length = l.length + 1 := by
  induction l with
  | nil => rfl
  | cons g gs ih =>
    by_cases h : g.mtime ≤ f.mtime
    · simp [insertByMtimeDesc, h]
    · simp [insertByMtimeDesc, h, ih]

theorem length_sortByMtimeDesc (l : List EFile) :
    (sortByMtimeDesc l).length = l.length := by
  induction l with
  | nil => rfl
  | cons f fs ih => simp [sortByMtimeDesc, length_insertByMtimeDesc, ih]

theorem sorted_insertByMtimeDesc (f : EFile) (l : List EFile)
    (h : List.Sorted (fun a b => b.mtime ≤ a.mtime) l) :
    List.Sorted (fun a b => b.mtime ≤ a.mtime) (insertByMtimeDesc f l) := by
  induction l with
  | nil => simp [insertByMtimeDesc]
  | cons g gs ih =>
    rw [List.sorted_cons] at h
    by_cases hc : g.mtime ≤ f.mtime
    · rw [insertByMtimeDesc, if_pos hc, List.sorted_cons]
      refine ⟨?_, List.sorted_cons.mpr h⟩
      intro b hb
      rcases List.mem_cons.mp hb with rfl | hb2
      · exact hc
      · exact le_trans (h.1 b hb2) hc
    · rw [insertByMtimeDesc, if_neg hc, List.sorted_cons]
      refine ⟨?_, ih h.2⟩
      intro b hb
      rcases (mem_insertByMtimeDesc b f gs).mp hb with rfl | hb2
      · exact le_of_not_le hc
      · exact h.1 b hb2

theorem sorted_sortByMtimeDesc (l : List EFile) :
    List.Sorted (fun a b => b.mtime ≤ a.mtime) (sortByMtimeDesc l) := by
  induction l with
  | nil => simp [sortByMtimeDesc]
  | cons f fs ih => exact sorted_insertByMtimeDesc f (sortByMtimeDesc fs) ih

/-- The head of the descending sort bounds every element's mtime. -/
theorem sortByMtimeDesc_head_max (l : List EFile) (f : EFile) (rest : List EFile)
    (h : sortByMtimeDesc l = f :: rest) : ∀ a ∈ l, a.mtime ≤ f.mtime := by
  intro a ha
  have hmem : a ∈ f :: rest := by rw [← h]; exact (mem_sortByMtimeDesc a l).mpr ha
  have hsorted := sorted_sortByMtimeDesc l
  rw [h, List.sorted_cons] at hsorted
  rcases List.mem_cons.mp hmem with rfl | h2
  · exact le_refl _
  · exact hsorted.1 a h2

/-- Claim C3: for every directory state whose export files have pairwise
distinct modification times, `cleanup_old_exports` deletes exactly the files
that are strictly older than `now - keepDays` days and are not the
most-recently-modified file (a file is not the newest iff some file has a
strictly larger mtime).  The zero-or-one-file no-op and the concrete
three-file scenario of the spec are instances of this characterization. -/
theorem cleanup_old_exports_deletes_exactly
    (files : List EFile) (now keepDays : Int)
    (hdist : ∀ f ∈ files, ∀ g ∈ files, f ≠ g → f.mtime ≠ g.mtime) (f : EFile) :
    f ∈ cleanupOldExports files now keepDays ↔
      (f ∈ files ∧ f.mtime < now - keepDays * secondsPerDay ∧
        ∃ g ∈ files, f.mtime < g.mtime) := by
  unfold cleanupOldExports
  by_cases hlen : files.length ≤ 1
  · rw [if_pos hlen]
    simp only [List.not_mem_nil, false_iff]
    rintro ⟨hf, _, g, hg, hfg⟩
    match files with
    | [] => exact absurd hf (List.not_mem_nil f)
    | [x] =>
      rw [List.mem_singleton] at hf hg
      subst hf; subst hg
      exact absurd hfg (lt_irrefl _)
    | x :: y :: xs => simp at hlen
  · rw [if_neg hlen]
    rcases hs : sortByMtimeDesc files with _ | ⟨newest, rest⟩
    · have := length_sortByMtimeDesc files
      rw [hs] at this
      simp at this
      omega
    · have hnew_mem : newest ∈ files := by
        have : newest ∈ sortByMtimeDesc files := by rw [hs]; exact List.mem_cons_self ..
        exact (mem_sortByMtimeDesc newest files).mp this
      have hmax : ∀ a ∈ files, a.mtime ≤ newest.mtime :=
        sortByMtimeDesc_head_max files newest rest hs
      constructor
      · intro hmem
        rw [List.mem_filter] at hmem
        obtain ⟨hmem1, hmem2⟩ := hmem
        rw [Bool.and_eq_true, decide_eq_true_eq, decide_eq_true_eq] at hmem2
        have hf_mem : f ∈ files := by
          have : f ∈ sortByMtimeDesc files := by rw [hs]; exact hmem1
          exact (mem_sortByMtimeDesc f files).mp this
        refine ⟨hf_mem, hmem2.1, newest, hnew_mem, ?_⟩
        have hne := hmem2.2
        have : f.mtime ≠ newest.mtime := hdist f hf_mem newest hnew_mem hne
        exact lt_of_le_of_ne (hmax f hf_mem) this
      · rintro ⟨hf_mem, hold, g, hg_mem, hlt⟩
        rw [List.mem_filter]
        constructor
        · have : f ∈ sortByMtimeDesc files := (mem_sortByMtimeDesc f files).mpr hf_mem
          rw [hs] at this
          exact this
        · rw [Bool.and_eq_true, decide_eq_true_eq, decide_eq_true_eq]
          refine ⟨hold, ?_⟩
          intro heq
          subst heq
          exact absurd (hmax g hg_mem) (not_le_of_lt hlt)

/-- Witness for claim C3: the spec's concrete scenario.  With three files of
mtimes now, now - 8 days, now - 3 days and keepDays = 7, the eight-day-old
file is deleted (and, by the same instance, the newest and the
three-day-old file are not). -/
theorem cleanup_old_exports_deletes_exactly_w :
    EFile.mk 1 (1000000 - 8 * 86400) ∈
      cleanupOldExports
        [EFile.mk 0 1000000, EFile.mk 1 (1000000 - 8 * 86400),
         EFile.mk 2 (1000000 - 3 * 86400)] 1000000 7 ∧
    EFile.mk 2 (1000000 - 3 * 86400) ∉
      cleanupOldExports
        [EFile.mk 0 1000000, EFile.mk 1 (1000000 - 8 * 86400),
         EFile.mk 2 (1000000 - 3 * 86400)] 1000000 7 := by
  constructor
  · exact (cleanup_old_exports_deletes_exactly
      [EFile.mk 0 1000000, EFile.mk 1 (1000000 - 8 * 86400),
       EFile.mk 2 (1000000 - 3 * 86400)] 1000000 7 (by decide)
      (EFile.mk 1 (1000000 - 8 * 86400))).mpr (by decide)
  · intro hmem
    have := (cleanup_old_exports_deletes_exactly
      [EFile.mk 0 1000000, EFile.mk 1 (1000000 - 8 * 86400),
       EFile.mk 2 (1000000 - 3 * 86400)] 1000000 7 (by decide)
      (EFile.mk 2 (1000000 - 3 * 86400))).mp hmem
    revert this
    decide

/-
===========================================================================
Export date range (download_export.py lines 896-912)
===========================================================================
-/

/-- Python's `calendar.isleap(year)`:
`year % 4 == 0 and (year % 100 != 0 or year % 400 == 0)`. -/
def isleap (y : Nat) : Bool := y % 4 == 0 && (y % 100 != 0 || y % 400 == 0)

/-- Python's `calendar.mdays` table (index 0 unused). -/
def mdays : List Nat := [0, 31, 28, 31, 30, 31, 30, 31, 31, 30, 31, 30, 31]

/-- `calendar.monthrange(year, month)[1]`: `mdays[month]` plus one when the
month is February of a leap year. -/
def monthrangeDays (y m : Nat) : Nat :=
  mdays.getD m 0 + (if m == 2 && isleap y then 1 else 0)

/-- A Python `datetime` date, fields as constructed by `datetime(y, m, d)`. -/
structure PyDate where
  year : Nat
  month : Nat
  day : Nat
deriving DecidableEq, Repr

/-- `date_from = datetime(year, month, 1)` (line 903). -/
def exportDateFrom (y m : Nat) : PyDate := ⟨y, m, 1⟩

/-- `date_to = datetime(year, month, monthrange(year, month)[1])`
(lines 905-906). -/
def exportDateTo (y m : Nat) : PyDate := ⟨y, m, monthrangeDays y m⟩

/-- Two-digit zero padding, as strftime's `%d` and `%m` produce. -/
def pad2 (n : Nat) : String := if n < 10 then "0" ++ toString n else toString n

/-- `strftime("%d-%m-%Y")` (lines 909-910): day, month, year, in that
order. -/
def strftimeDMY (d : PyDate) : String :=
  pad2 d.day ++ "-" ++ pad2 d.month ++ "-" ++ toString d.year

/-- Spec-side leap-year rule, from the Gregorian calendar convention the spec
appeals to: divisible by 4, except century years not divisible by 400. -/
def specIsLeap (y : Nat) : Bool := (y % 4 == 0 && y % 100 != 0) || y % 400 == 0

/-- Spec-side length of a calendar month (spec.md section 8): 31 days except
April, June, September, November with 30, and February with 29 in a leap
year and 28 otherwise.  Defined from the spec's words, to be compared with
the code's `monthrangeDays`. -/
def specLastDayOfMonth (y m : Nat) : Nat :=
  if m == 2 then (if specIsLeap y then 29 else 28)
  else if m == 4 || m == 6 || m == 9 || m == 11 then 30
  else 31

theorem isleap_eq_specIsLeap (y : Nat) : isleap y = specIsLeap y := by
  unfold isleap specIsLeap
  cases h4 : (y % 4 == 0) <;> cases h100 : (y % 100 != 0) <;> cases h400 : (y % 400 == 0) <;>
    simp only [h4, h100, h400, Bool.false_and, Bool.true_and, Bool.and_false, Bool.and_true,
      Bool.or_false, Bool.false_or, Bool.or_true, Bool.true_or] <;>
    first
      | rfl
      | (simp only [beq_iff_eq, beq_eq_false_iff_ne, bne_iff_ne, bne_eq_false_iff_eq,
          ne_eq] at h4 h100 h400; omega)

theorem monthrangeDays_eq_spec (y m : Nat) (h1 : 1 ≤ m) (h2 : m ≤ 12) :
    monthrangeDays y m = specLastDayOfMonth y m := by
  interval_cases m
  all_goals try rfl
  have hcode : monthrangeDays y 2 = 28 + (if isleap y = true then 1 else 0) := rfl
  have hspec : specLastDayOfMonth y 2 = if specIsLeap y = true then 29 else 28 := rfl
  rw [hcode, hspec, isleap_eq_specIsLeap]
  cases specIsLeap y <;> simp

/-- Claim C4: for every call time (any year, any month 1..12) the export date
range runs from the first to the last calendar day of the month containing
the current date, where the last day follows the Gregorian month lengths
(28/29/30/31, with February 29 exactly in leap years), and both bounds are
formatted in day-month-year order. -/
theorem export_month_bounds (y m : Nat) (h1 : 1 ≤ m) (h2 : m ≤ 12) :
    exportDateFrom y m = ⟨y, m, 1⟩ ∧
    exportDateTo y m = ⟨y, m, specLastDayOfMonth y m⟩ ∧
    strftimeDMY (exportDateFrom y m) = pad2 1 ++ "-" ++ pad2 m ++ "-" ++ toString y ∧
    strftimeDMY (exportDateTo y m) =
      pad2 (specLastDayOfMonth y m) ++ "-" ++ pad2 m ++ "-" ++ toString y := by
  have hd : monthrangeDays y m = specLastDayOfMonth y m := monthrangeDays_eq_spec y m h1 h2
  refine ⟨rfl, ?_, rfl, ?_⟩
  · show PyDate.mk y m (monthrangeDays y m) = PyDate.mk y m (specLastDayOfMonth y m)
    rw [hd]
  · show pad2 (monthrangeDays y m) ++ "-" ++ pad2 m ++ "-" ++ toString y = _
    rw [hd]

/-- Witness for claim C4: February 2024 (a leap year) ends on day 29, and
April ends on day 30, via the theorem at those inputs. -/
theorem export_month_bounds_w :
    exportDateTo 2024 2 = ⟨2024, 2, 29⟩ ∧ exportDateTo 2024 4 = ⟨2024, 4, 30⟩ := by
  have hf := export_month_bounds 2024 2 (by decide) (by decide)
  have ha := export_month_bounds 2024 4 (by decide) (by decide)
  exact ⟨by rw [hf.2.1]; decide, by rw [ha.2.1]; decide⟩

/-
===========================================================================
Element resolution by ordered locator strategies
(login button: lines 83-106; export trigger: 281-318; modal: 496-574;
confirm action: 960-989)
===========================================================================
-/

/-- Result of a visibility probe on an element: visible, not visible, or the
probe itself raised. -/
inductive VisCheck
  | yes
  | no
  | err
deriving DecidableEq, Repr

/-- A DOM element as resolution sees it: an identifier and the outcome its
visibility probe would have. -/
structure DomElem where
  eid : Nat
  vis : VisCheck
deriving DecidableEq, Repr

/-- Outcome of one locator strategy's query: the locator or count call raised,
or the DOM-ordered list of elements the selector matches. -/
inductive StratOutcome
  | qerr
  | found (elems : List DomElem)
deriving DecidableEq, Repr

/-- The element reference `.first` takes: the first DOM-order match of the
strategy (0 when there is none). -/
def headEid : StratOutcome → Nat
  | .qerr => 0
  | .found [] => 0
  | .found (e :: _) => e.eid

/-- The ordered-strategy resolution loop, mirrored from the source.  Every
loop takes the selector's first DOM match, tests that a match exists, then
tests visibility of that first match; a raising query moves on to the next
selector.  `lenient = false` is the login-button, export-trigger and modal
shape, where a raising visibility probe is swallowed by the same
`except: continue`; `lenient = true` is the confirm-action shape
(lines 973-989), whose inner handler takes the element anyway when the
visibility probe raises.  Returns the matched strategy's index and the
resolved element id. -/
def resolveOrdAux (lenient : Bool) : Nat → List StratOutcome → Option (Nat × Nat)
  | _, [] => none
  | i, StratOutcome.qerr :: os => resolveOrdAux lenient (i + 1) os
  | i, StratOutcome.found [] :: os => resolveOrdAux lenient (i + 1) os
  | i, StratOutcome.found (e :: _) :: os =>
    match e.vis with
    | VisCheck.yes => some (i, e.eid)
    | VisCheck.no => resolveOrdAux lenient (i + 1) os
    | VisCheck.err =>
      if lenient then some (i, e.eid) else resolveOrdAux lenient (i + 1) os

def resolveOrd (lenient : Bool) (outs : List StratOutcome) : Option (Nat × Nat) :=
  resolveOrdAux lenient 0 outs

/-- Whether the loop accepts a strategy: its query succeeded, it has a first
DOM-order match, and that match's visibility probe returns true (or, in the
lenient confirm shape, raises). -/
def stratAccepts (lenient : Bool) : StratOutcome → Bool
  | .qerr => false
  | .found [] => false
  | .found (e :: _) =>
    match e.vis with
    | .yes => true
    | .no => false
    | .err => lenient

/-- A strategy "matches a visible element" in the claim's sense: some element
anywhere in its DOM-order match list is visible.  Defined from the claim's
words, for comparison with what the loop actually tests. -/
def matchesVisibleElem : StratOutcome → Bool
  | .qerr => false
  | .found es => es.any (fun e => e.vis == VisCheck.yes)

theorem resolveOrdAux_cons_accept (lenient : Bool) (i : Nat) (o : StratOutcome)
    (os : List StratOutcome) (h : stratAccepts lenient o = true) :
    resolveOrdAux lenient i (o :: os) = some (i, headEid o) := by
  match o with
  | StratOutcome.qerr => simp [stratAccepts] at h
  | StratOutcome.found [] => simp [stratAccepts] at h
  | StratOutcome.found (e :: _) =>
    cases hv : e.vis <;> simp [stratAccepts, hv] at h <;>
      simp [resolveOrdAux, hv, headEid, h]

theorem resolveOrdAux_cons_skip (lenient : Bool) (i : Nat) (o : StratOutcome)
    (os : List StratOutcome) (h : stratAccepts lenient o = false) :
    resolveOrdAux lenient i (o :: os) = resolveOrdAux lenient (i + 1) os := by
  match o with
  | StratOutcome.qerr => simp [resolveOrdAux]
  | StratOutcome.found [] => simp [resolveOrdAux]
  | StratOutcome.found (e :: _) =>
    cases hv : e.vis <;> simp [stratAccepts, hv] at h <;>
      simp [resolveOrdAux, hv, h]

theorem resolveOrdAux_first_match (lenient : Bool) (outs : List StratOutcome)
    (k i : Nat) (hk : k < outs.length)
    (h1 : ∀ j, j < k → stratAccepts lenient (outs.getD j StratOutcome.qerr) = false)
    (h2 : stratAccepts lenient (outs.getD k StratOutcome.qerr) = true) :
    resolveOrdAux lenient i outs = some (i + k, headEid (outs.getD k StratOutcome.qerr)) := by
  induction outs generalizing k i with
  | nil => exact absurd hk (by simp)
  | cons o os ih =>
    match k with
    | 0 =>
      simp only [List.getD_cons_zero] at h2 ⊢
      rw [resolveOrdAux_cons_accept lenient i o os h2]
      simp
    | k + 1 =>
      have h0 : stratAccepts lenient o = false := by
        have := h1 0 (Nat.succ_pos k)
        simpa using this
      rw [resolveOrdAux_cons_skip lenient i o os h0]
      simp only [List.getD_cons_succ]
      have hk2 : k < os.length := by rw [List.length_cons] at hk; omega
      have := ih k (i + 1) hk2
        (fun j hj => by have := h1 (j + 1) (by omega); simpa using this)
        (by simpa using h2)
      have harith : i + 1 + k = i + (k + 1) := by omega
      rw [harith] at this
      exact this

/-- Claim C7 as stated is false on the code, at two concrete inputs.
First, a single strategy whose DOM-order matches are an invisible element
followed by a visible one: the strategy matches a visible element, yet
resolution returns none, because only the first DOM-order match is ever
examined ("never NotFound" fails).  Second, in the confirm-action loop a
strategy whose visibility probe errors is accepted immediately rather than
counting as a non-match, so the visible element of the next strategy is
never reached. -/
theorem resolve_first_visible_cex :
    (resolveOrd false [StratOutcome.found [⟨10, VisCheck.no⟩, ⟨11, VisCheck.yes⟩]] = none ∧
      matchesVisibleElem (StratOutcome.found [⟨10, VisCheck.no⟩, ⟨11, VisCheck.yes⟩]) = true) ∧
    (resolveOrd true [StratOutcome.found [⟨20, VisCheck.err⟩],
        StratOutcome.found [⟨21, VisCheck.yes⟩]] = some (0, 20) ∧
      matchesVisibleElem (StratOutcome.found [⟨20, VisCheck.err⟩]) = false ∧
      matchesVisibleElem (StratOutcome.found [⟨21, VisCheck.yes⟩]) = true) := by
  decide

/-- Claim C7 amended: resolution walks the strategies in priority order but
examines only each strategy's first DOM-order match.  If no strategy before
index k is accepted (query error, no match, or first match not passing the
visibility check) and strategy k is accepted (its first DOM-order match
exists and its visibility check passes — for the confirm action a raising
visibility check also counts as passing), then resolution returns exactly
strategy k's first DOM-order element: never an element of a later strategy
and never NotFound. -/
theorem resolve_first_visible (lenient : Bool) (outs : List StratOutcome) (k : Nat)
    (hk : k < outs.length)
    (h1 : ∀ j, j < k → stratAccepts lenient (outs.getD j StratOutcome.qerr) = false)
    (h2 : stratAccepts lenient (outs.getD k StratOutcome.qerr) = true) :
    resolveOrd lenient outs = some (k, headEid (outs.getD k StratOutcome.qerr)) := by
  have := resolveOrdAux_first_match lenient outs k 0 hk h1 h2
  simpa [resolveOrd] using this

/-- Witness for claim C7: with a raising first strategy, an invisible-first
second strategy, and a visible third strategy, resolution returns the third
strategy's first element. -/
theorem resolve_first_visible_w :
    resolveOrd false [StratOutcome.qerr, StratOutcome.found [⟨3, VisCheck.no⟩],
      StratOutcome.found [⟨5, VisCheck.yes⟩, ⟨6, VisCheck.yes⟩]] = some (2, 5) := by
  have := resolve_first_visible false
    [StratOutcome.qerr, StratOutcome.found [⟨3, VisCheck.no⟩],
      StratOutcome.found [⟨5, VisCheck.yes⟩, ⟨6, VisCheck.yes⟩]] 2
    (by decide) (by decide) (by decide)
  simpa using this

/-
===========================================================================
Password logging (lines 43, 53, 207-208, 1224-1225, 1250-1251)
===========================================================================
-/

/-- A run of n asterisks, Python's star-repeat on a one-character string. -/
def starRun (n : Nat) : String := String.mk (List.replicate n '*')

/-- The password-entered line of the login step (line 53): only the length is
printed. -/
def pwEnteredLine (p : String) : String :=
  "✓ Password entered (length: " ++ toString p.length ++ ")"

/-- The password-field-value debug line (line 208): ten-capped asterisk run
plus the length of the field's value. -/
def pwFieldValueLine (v : String) : String :=
  "   Password field value: " ++ starRun (min v.length 10) ++ "... (length: " ++
    toString v.length ++ ")"

/-- The startup banner's password line (line 1225). -/
def mainPwBannerLine (p : String) : String :=
  "Password: " ++ starRun (min p.length 10) ++ "... (length: " ++ toString p.length ++ ")"

/-- The login-failure summary's password line (line 1251). -/
def mainPwFailLine (p : String) : String :=
  "  Password: " ++ starRun p.length ++ " (length: " ++ toString p.length ++ ")"

/-- Claim C10: every printed reference to the password is a function of its
length alone — asterisk runs and the length, never the characters — so two
runs that differ only in equal-length passwords (and, on the failed-login
path, equal-length retained field values) print identical password-related
log lines. -/
theorem password_log_noninterference (p q : String) (h : p.length = q.length) :
    pwEnteredLine p = pwEnteredLine q ∧ pwFieldValueLine p = pwFieldValueLine q ∧
    mainPwBannerLine p = mainPwBannerLine q ∧ mainPwFailLine p = mainPwFailLine q := by
  unfold pwEnteredLine pwFieldValueLine mainPwBannerLine mainPwFailLine
  rw [h]
  exact ⟨rfl, rfl, rfl, rfl⟩

/-- Witness for claim C10: two distinct equal-length passwords yield the same
four log lines. -/
theorem password_log_noninterference_w :
    pwEnteredLine ("abc") = pwEnteredLine ("xyz") ∧
    pwFieldValueLine ("abc") = pwFieldValueLine ("xyz") ∧
    mainPwBannerLine ("abc") = mainPwBannerLine ("xyz") ∧
    mainPwFailLine ("abc") = mainPwFailLine ("xyz") :=
  password_log_noninterference ("abc") ("xyz") rfl

/-
===========================================================================
Diagnostic capture sites
(login failure: lines 180-213; missing confirm button: lines 1053-1068)
===========================================================================
-/

/-- A capture attempt and whether the underlying save raised. -/
inductive CapEv
  | htmlAttempt (ok : Bool)
  | screenshotAttempt (ok : Bool)
deriving DecidableEq, Repr

/-- The login-failure capture block (lines 180-213): one `try` covers the
directory creation, the markup save and the screenshot, with a single
`except` at line 212 that swallows whatever raised.  So a failed directory
creation attempts neither save, a failed markup save skips the screenshot,
and a failed screenshot is simply swallowed; nothing propagates. -/
def loginDebugCapture (mkdirOk htmlOk scrOk : Bool) : List CapEv :=
  if mkdirOk then
    if htmlOk then [CapEv.htmlAttempt true, CapEv.screenshotAttempt scrOk]
    else [CapEv.htmlAttempt false]
  else []

/-- The missing-confirm-button capture block of download_export
(lines 1053-1068): the screenshot save and the markup save each sit in their
own `try`/`except`, so each is attempted whatever happens to the other, and
neither failure propagates. -/
def modalDebugCapture (scrOk htmlOk : Bool) : List CapEv :=
  [CapEv.screenshotAttempt scrOk] ++ [CapEv.htmlAttempt htmlOk]

def isScreenshotAttempt : CapEv → Bool
  | CapEv.screenshotAttempt _ => true
  | _ => false

/-- Claim C8 as stated is false on the code at a concrete input: at the
login-failure capture site, when the markup save raises (directory creation
fine, screenshot would have succeeded), the screenshot is never attempted —
the two saves share one exception handler, so a markup failure does prevent
the snapshot attempt. -/
theorem capture_independent_cex :
    loginDebugCapture true false true = [CapEv.htmlAttempt false] ∧
    (loginDebugCapture true false true).all (fun ev => !(isScreenshotAttempt ev)) = true := by
  decide

/-- Claim C8 amended: at the missing-confirm capture site of download_export
the markup save and the snapshot save are each attempted regardless of the
other's failure and neither failure propagates; at the login-failure capture
site nothing propagates either, and the markup save is always attempted once
the debug directory exists, but a markup-save failure prevents the
snapshot attempt (both saves share one handler there). -/
theorem capture_independent (m h s : Bool) :
    CapEv.screenshotAttempt s ∈ modalDebugCapture s h ∧
    CapEv.htmlAttempt h ∈ modalDebugCapture s h ∧
    CapEv.htmlAttempt h ∈ loginDebugCapture true h s ∧
    (loginDebugCapture m false s).all (fun ev => !(isScreenshotAttempt ev)) = true := by
  cases m <;> cases h <;> cases s <;> decide

/-
===========================================================================
Session driver: login_to_classeviva (lines 23-234)
===========================================================================
-/

/-- Events observable during login, in program order. -/
inductive LEv
  | gotoLogin (ok : Bool)    -- loading the login page (line 31)
  | fillUsername             -- line 42
  | fillPassword             -- line 52
  | captchaAbort             -- returning on a detected challenge (lines 73-76)
  | clickSubmit              -- a click of the resolved login button (lines 129, 134)
  | errorScan (found : Bool) -- visible-error-message scan (lines 153-175)
  | diagCapture              -- entering the debug-save block (line 181)
  | cap (c : CapEv)          -- a capture attempt inside that block
deriving DecidableEq, Repr

/-- Environment of one login run: what every external query would return. -/
structure LEnv where
  gotoOk : Bool                -- login page load succeeds (line 31)
  userFieldFound : Bool        -- wait_for_selector on the username id (line 40)
  passFieldPresent : Bool      -- password locator count nonzero (line 48)
  captchaQ : List (Option Nat) -- per challenge selector: count, or none if it raised (65-71)
  buttons : List StratOutcome  -- the nine login-button selectors (lines 83-93)
  expectNavOk : Bool           -- click-under-expect_navigation completes (lines 128-130)
  secondClickOk : Bool         -- the plain retry click completes (line 134)
  urlHasLogin : Bool           -- the post-submit URL still contains the login marker (148)
  errorVisible : Bool          -- some error selector is visible with text (165-175)
  mkdirOk : Bool               -- debug directory creation (line 183)
  htmlSaveOk : Bool            -- markup save (lines 186-188)
  screenshotOk : Bool          -- screenshot save (lines 192-193)
deriving DecidableEq, Repr

/-- The challenge scan (lines 64-71): a selector whose count raises is
swallowed; the flag is set iff some selector reports a positive count. -/
def captchaFound (qs : List (Option Nat)) : Bool :=
  qs.any (fun o => match o with | some n => decide (0 < n) | none => false)

/-- The still-on-login-page branch (lines 148-221) and the success branch
(lines 223-224), entered after the submit click. -/
def loginAfterClick (e : LEnv) (tr : List LEv) : Bool × List LEv :=
  if e.urlHasLogin then
    (false, tr ++ [LEv.errorScan e.errorVisible, LEv.diagCapture] ++
      (loginDebugCapture e.mkdirOk e.htmlSaveOk e.screenshotOk).map LEv.cap)
  else (true, tr)

/-- login_to_classeviva (lines 23-234) as a function of its environment,
returning the Python return value and the trace of observable events.  Early
exceptions (page load, field lookup) and a failing retry click are caught by
the handlers at lines 226-234 and also return False. -/
def login (e : LEnv) : Bool × List LEv :=
  if e.gotoOk then
    if e.userFieldFound then
      if e.passFieldPresent then
        if captchaFound e.captchaQ then
          (false, [LEv.gotoLogin true, LEv.fillUsername, LEv.fillPassword, LEv.captchaAbort])
        else
          match resolveOrd false e.buttons with
          | none => (false, [LEv.gotoLogin true, LEv.fillUsername, LEv.fillPassword])
          | some _ =>
            if e.expectNavOk then
              loginAfterClick e
                [LEv.gotoLogin true, LEv.fillUsername, LEv.fillPassword, LEv.clickSubmit]
            else if e.secondClickOk then
              loginAfterClick e
                [LEv.gotoLogin true, LEv.fillUsername, LEv.fillPassword,
                 LEv.clickSubmit, LEv.clickSubmit]
            else
              (false, [LEv.gotoLogin true, LEv.fillUsername, LEv.fillPassword,
                LEv.clickSubmit, LEv.clickSubmit])
      else (false, [LEv.gotoLogin true, LEv.fillUsername])
    else (false, [LEv.gotoLogin true])
  else (false, [LEv.gotoLogin false])

/-- The success predicate exactly as claim C2 states it: the resulting URL no
longer matches the login view AND no visible error-message element is
present.  Defined from the claim's words, for comparison with the code. -/
def claimLoginSuccess (e : LEnv) : Bool := !e.urlHasLogin && !e.errorVisible

/-- A run that leaves the login URL while a visible error message is present:
the code reports success, the claim's predicate does not. -/
def lenvErrorOffLogin : LEnv :=
  { gotoOk := true, userFieldFound := true, passFieldPresent := true,
    captchaQ := [some 0, some 0, some 0, some 0, some 0],
    buttons := [StratOutcome.found [⟨1, VisCheck.yes⟩]],
    expectNavOk := true, secondClickOk := true,
    urlHasLogin := false, errorVisible := true,
    mkdirOk := true, htmlSaveOk := true, screenshotOk := true }

/-- Claim C2 as stated is false on the code at a concrete input: after the
submit click the code only tests whether the URL still matches the login
view; when the URL has left the login view but a visible error-message
element is present, login still returns success, while the claim's
success predicate is false. -/
theorem login_success_iff_cex :
    (login lenvErrorOffLogin).1 = true ∧ claimLoginSuccess lenvErrorOffLogin = false := by
  decide

/-- Claim C2 amended: on every run that reaches the post-submit check (login
page and both fields found, no challenge detected, a submit button resolved,
a click completed), login returns success iff the resulting URL no longer
matches the login view.  The visible-error-message scan is consulted only
for logging when the URL still matches the login view; in that case login
returns failure and the diagnostic-capture block is entered. -/
theorem login_success_iff (e : LEnv)
    (hg : e.gotoOk = true) (hu : e.userFieldFound = true) (hp : e.passFieldPresent = true)
    (hc : captchaFound e.captchaQ = false)
    (hb : (resolveOrd false e.buttons).isSome = true)
    (hclick : e.expectNavOk = true ∨ e.secondClickOk = true) :
    ((login e).1 = true ↔ e.urlHasLogin = false) ∧
    (e.urlHasLogin = true →
      (login e).1 = false ∧ LEv.diagCapture ∈ (login e).2 ∧
        LEv.errorScan e.errorVisible ∈ (login e).2) := by
  rcases hres : resolveOrd false e.buttons with _ | r
  · rw [hres] at hb; simp at hb
  · have hlogin : login e = (if e.expectNavOk then
        loginAfterClick e
          [LEv.gotoLogin true, LEv.fillUsername, LEv.fillPassword, LEv.clickSubmit]
      else if e.secondClickOk then
        loginAfterClick e
          [LEv.gotoLogin true, LEv.fillUsername, LEv.fillPassword,
           LEv.clickSubmit, LEv.clickSubmit]
      else
        (false, [LEv.gotoLogin true, LEv.fillUsername, LEv.fillPassword,
          LEv.clickSubmit, LEv.clickSubmit])) := by
      unfold login
      rw [hg, hu, hp, hc, hres]
      simp
    cases hnav : e.expectNavOk with
    | true =>
      rw [hnav] at hlogin
      simp only [if_true] at hlogin
      rw [hlogin]
      unfold loginAfterClick
      cases hurl : e.urlHasLogin <;> simp [hurl]
    | false =>
      have hsec : e.secondClickOk = true := by
        rcases hclick with h | h
        · rw [h] at hnav; exact absurd hnav (by simp)
        · exact h
      rw [hnav, hsec] at hlogin
      simp only [if_false, if_true, Bool.false_eq_true] at hlogin
      rw [hlogin]
      unfold loginAfterClick
      cases hurl : e.urlHasLogin <;> simp [hurl]

/-- A run that stays on the login URL after the submit click. -/
def lenvStillLogin : LEnv :=
  { gotoOk := true, userFieldFound := true, passFieldPresent := true,
    captchaQ := [some 0, some 0, some 0, some 0, some 0],
    buttons := [StratOutcome.qerr, StratOutcome.found [⟨2, VisCheck.yes⟩]],
    expectNavOk := true, secondClickOk := true,
    urlHasLogin := true, errorVisible := false,
    mkdirOk := true, htmlSaveOk := true, screenshotOk := true }

/-- Witness for claim C2 (amended): a concrete run still on the login URL
returns failure and enters the diagnostic capture. -/
theorem login_success_iff_w :
    (login lenvStillLogin).1 = false ∧ LEv.diagCapture ∈ (login lenvStillLogin).2 ∧
      LEv.errorScan false ∈ (login lenvStillLogin).2 :=
  (login_success_iff lenvStillLogin rfl rfl rfl (by decide) (by decide) (Or.inl rfl)).2 rfl

/-
===========================================================================
Modal/download race coordinator: download_export (lines 268-1132)
===========================================================================
-/

/-- Events of download_export, in program order. -/
inductive DEv
  | noTriggerShot            -- screenshot when the trigger is missing (lines 322-328)
  | requestListener          -- network-request listener registration (line 357)
  | inspectTrigger           -- button property inspection (lines 361-397)
  | downloadListener         -- entering expect_download (line 422)
  | clickTrigger             -- a click attempt on the export trigger (427, 433, 437)
  | afterClickShot           -- post-click debug screenshot (lines 484-489)
  | modalScan (found : Bool) -- the modal detection phases (lines 491-710)
  | linkClick                -- clicking a freshly-found download link (line 688)
  | recNav (i : Nat)         -- recovery step 1: goto captured request URL i (line 723)
  | recOnclick               -- recovery step 2: run the onclick handler (line 740)
  | recReclick               -- recovery step 3: script re-click of the trigger (line 750)
  | probeNav (i : Nat)       -- recovery step 4: goto probe URL i (line 777)
  | probeDetect (i : Nat)    -- probe i's headers or content indicate a download (790-824)
  | probeSubmit (i : Nat)    -- probe i found an HTML form and clicked submit (line 864)
  | awaitDownload            -- leaving the expect_download block (after line 887)
  | fillDates                -- date-range fill section (lines 896-951)
  | clickConfirm             -- confirm-button click attempts (lines 1026-1044)
  | confirmShot              -- screenshot when no confirm button (lines 1054-1059)
  | confirmHtml              -- markup save when no confirm button (lines 1062-1068)
  | pressEnter               -- keyboard activate fallback (line 1083)
  | saveFile                 -- download.save_as (line 1106)
  | timeoutShot              -- screenshot in the timeout handler (lines 1120-1125)
deriving DecidableEq, Repr

/-- One captured network request, as recovery step 1 sees it: does its URL
look like a download (spreadsheet extension or a download marker, line 719),
and would navigating to it succeed (line 723). -/
structure NetReqEnv where
  isDl : Bool
  navOk : Bool
deriving DecidableEq, Repr

/-- One probe of recovery step 4 (lines 773-879): navigation outcome, header
readability and values, content readability and shape, and the embedded-form
path. -/
structure ProbeEnv where
  navOk : Bool      -- page.goto of the probe URL (line 777)
  headersOk : Bool  -- response header read does not raise (lines 782-783)
  ctExcel : Bool    -- content-type is a spreadsheet type (line 790)
  cdAttach : Bool   -- content-disposition marks an attachment (line 794)
  contentOk : Bool  -- page title/content read does not raise (lines 807-808)
  binaryLike : Bool -- small response with binary-looking bytes (lines 813-819)
  hasForm : Bool    -- the HTML page carries a form (line 829)
  hasFields : Bool  -- date fields or submit buttons inside it (line 836)
  hasSubmit : Bool  -- a submit button exists (line 862)
  submitOk : Bool   -- clicking it does not raise (line 864)
deriving DecidableEq, Repr

/-- Environment of one download_export run. -/
structure DEnv where
  m1 : Option Bool      -- trigger search method 1 (text): visibility, none if raised (283-288)
  m2 : Option Bool      -- trigger search method 2 (title attribute) (292-298)
  m3found : Bool        -- method 3 keyword scan finds a visible candidate (302-317)
  interactive : Bool
  clickNatOk : Bool     -- native click (line 427)
  clickJsOk : Bool      -- script click (line 433)
  clickForceOk : Bool   -- forced click (line 437)
  modalFound : Bool     -- any modal-detection phase succeeds (lines 496-648)
  dlLinks : List Bool   -- download links found after the click: looks-like-export flags (674-693)
  modalLate : Bool      -- the delayed re-check finds a modal (lines 702-710)
  reqs : List NetReqEnv -- captured network requests (line 716)
  onclickAttr : Bool    -- the trigger has an onclick handler (line 736)
  urlAgenda : Bool      -- the current URL still carries the agenda path (line 762)
  probe0 : ProbeEnv
  probe1 : ProbeEnv
  probe2 : ProbeEnv
  probe3 : ProbeEnv
  dlFires : Bool        -- the download event arrives before the 30s budget (line 422)
  confirmFound : Bool   -- a confirm control resolves (lines 960-1022)
  saveRaises : Bool     -- download.save_as raises (line 1106)
  saveExists : Bool     -- the saved file exists afterwards (line 1107)
deriving DecidableEq, Repr

/-- The three-method trigger search (lines 281-318): method 2 runs only when
method 1 produced nothing, method 3 only when both selector methods did. -/
def searchTriggerFound (e : DEnv) : Bool :=
  match e.m1 with
  | some true => true
  | _ =>
    match e.m2 with
    | some true => true
    | _ => e.m3found

/-- The cascading click of the trigger (lines 423-440): native click, then
script click, then forced click, each attempted only if the previous raised;
if all three raise, the `raise` at line 440 rethrows.  Returns the attempt
trace and whether a click completed. -/
def clickPhase (trig natOk jsOk forceOk : Bool) : List DEv × Bool :=
  if trig && natOk then ([DEv.clickTrigger], true)
  else if trig && jsOk then ([DEv.clickTrigger, DEv.clickTrigger], true)
  else if trig && forceOk then ([DEv.clickTrigger, DEv.clickTrigger, DEv.clickTrigger], true)
  else ([DEv.clickTrigger, DEv.clickTrigger, DEv.clickTrigger], false)

/-- The freshly-found download links are walked and every export-looking one
is clicked (lines 677-693; the loop takes the first three links and does not
stop after a click). -/
def dlLinkEvs : List Bool → List DEv
  | [] => []
  | b :: bs => (if b then [DEv.linkClick] else []) ++ dlLinkEvs bs

/-- Recovery step 1 (lines 716-729): walk the captured network requests,
navigate to each download-looking URL, and stop after the first navigation
that does not raise. -/
def recNavEvs : Nat → List NetReqEnv → List DEv
  | _, [] => []
  | i, r :: rs =>
    if r.isDl then DEv.recNav i :: (if r.navOk then [] else recNavEvs (i + 1) rs)
    else recNavEvs (i + 1) rs

/-- One probe of recovery step 4 (lines 773-879): navigate, inspect headers,
then content shape, then an embedded form; returns the events and whether
the probe loop breaks here. -/
def probeOne (i : Nat) (p : ProbeEnv) : List DEv × Bool :=
  if !p.navOk then ([DEv.probeNav i], false)
  else if p.headersOk && p.ctExcel then ([DEv.probeNav i, DEv.probeDetect i], true)
  else if p.headersOk && p.cdAttach then ([DEv.probeNav i, DEv.probeDetect i], true)
  else if !p.contentOk then ([DEv.probeNav i], false)
  else if p.binaryLike then ([DEv.probeNav i, DEv.probeDetect i], true)
  else if p.hasForm && p.hasFields && p.hasSubmit then
    ([DEv.probeNav i, DEv.probeSubmit i], p.submitOk)
  else ([DEv.probeNav i], false)

/-- Recovery step 4's loop over the four conventional export URLs
(lines 765-879). -/
def probeEvs : Nat → List ProbeEnv → List DEv
  | _, [] => []
  | i, p :: ps =>
    (probeOne i p).1 ++ (if (probeOne i p).2 then [] else probeEvs (i + 1) ps)

/-- The Undetermined-state recovery sequence (lines 712-887), reached when
neither a modal nor a download was observed: step 1 replays download-looking
captured requests, step 2 runs the trigger's onclick handler if it has one,
step 3 re-clicks the trigger via script, step 4 probes the conventional
export URLs if the page still shows the agenda path. -/
def recoveryEvs (e : DEnv) : List DEv :=
  recNavEvs 0 e.reqs ++
  (if e.onclickAttr then [DEv.recOnclick] else []) ++
  [DEv.recReclick] ++
  (if e.urlAgenda then probeEvs 0 [e.probe0, e.probe1, e.probe2, e.probe3] else [])

/-- The exception kinds the outer handlers distinguish (lines 1117, 1127). -/
inductive DExc
  | timeout
  | generic
deriving DecidableEq, Repr

/-- Everything before the expect_download registration: the trigger search
with its missing-trigger screenshot (lines 281-343), the request-listener
registration (line 357), and the trigger inspection (lines 361-397). -/
def triggerPre (trig : Bool) : List DEv :=
  (if trig then [] else [DEv.noTriggerShot]) ++
    [DEv.requestListener, DEv.inspectTrigger]

/-- The inside of the expect_download block after a completed click: the
debug screenshot, the modal scan, the no-modal alternatives (download-link
clicks, delayed modal re-check, the recovery sequence), and the wait at
block exit. -/
def midEvs (e : DEnv) (clickTrace : List DEv) : List DEv :=
  clickTrace ++
    [DEv.afterClickShot, DEv.modalScan (e.modalFound || e.modalLate)] ++
    (if e.modalFound then []
     else dlLinkEvs (e.dlLinks.take 3) ++ (if e.modalLate then [] else recoveryEvs e)) ++
    [DEv.awaitDownload]

/-- After the expect_download block (so after the download event already
arrived): the date filling (lines 896-951) and the confirm activation or its
capture-and-keyboard fallback (lines 953-1087). -/
def postEvs (e : DEnv) : List DEv :=
  [DEv.fillDates] ++
    (if e.confirmFound then [DEv.clickConfirm]
     else [DEv.confirmShot, DEv.confirmHtml] ++
       (if e.interactive then [] else [DEv.pressEnter]))

/-- The body of download_export before its outer exception handlers: the
trace of events together with a normal result (the saved path as some, False
as none) or the exception that escapes to the handlers.  When the trigger is
missing in non-interactive mode the function returns False right after the
debug screenshot (line 343).  When every click method raises, the `raise`
at line 440 escapes.  When the download event never arrives, the
expect_download context manager raises the timeout at block exit.  The date
filling and confirm activation run after the block, hence only on runs
where the download already arrived; a raising save_as escapes, and a saved
file that does not exist afterwards yields False (line 1115). -/
def downloadExportBody (e : DEnv) : List DEv × Except DExc (Option Nat) :=
  if !searchTriggerFound e && !e.interactive then
    ([DEv.noTriggerShot], Except.ok none)
  else if !(clickPhase (searchTriggerFound e) e.clickNatOk e.clickJsOk e.clickForceOk).2 then
    (triggerPre (searchTriggerFound e) ++ DEv.downloadListener ::
        (clickPhase (searchTriggerFound e) e.clickNatOk e.clickJsOk e.clickForceOk).1,
      Except.error DExc.generic)
  else if !e.dlFires then
    (triggerPre (searchTriggerFound e) ++ DEv.downloadListener ::
        midEvs e (clickPhase (searchTriggerFound e) e.clickNatOk e.clickJsOk e.clickForceOk).1,
      Except.error DExc.timeout)
  else if e.saveRaises then
    (triggerPre (searchTriggerFound e) ++ DEv.downloadListener ::
        (midEvs e (clickPhase (searchTriggerFound e) e.clickNatOk e.clickJsOk e.clickForceOk).1 ++
          postEvs e),
      Except.error DExc.generic)
  else
    (triggerPre (searchTriggerFound e) ++ DEv.downloadListener ::
        (midEvs e (clickPhase (searchTriggerFound e) e.clickNatOk e.clickJsOk e.clickForceOk).1 ++
          postEvs e ++ [DEv.saveFile]),
      Except.ok (if e.saveExists then some 1 else none))

/-- download_export with its outer handlers (lines 1117-1132): a timeout
appends the timeout screenshot and returns False; any other exception
returns False after printing; a normal result passes through. -/
def downloadExport (e : DEnv) : List DEv × Option Nat :=
  match downloadExportBody e with
  | (tr, Except.ok r) => (tr, r)
  | (tr, Except.error DExc.timeout) => (tr ++ [DEv.timeoutShot], none)
  | (tr, Except.error DExc.generic) => (tr, none)

/-- The clicks that may produce a download: the export-trigger click and its
fallbacks, the download-link click, the recovery onclick and re-click, the
probe form submit, the confirm click, and the keyboard activate. -/
def isDownloadClick : DEv → Bool
  | DEv.clickTrigger => true
  | DEv.linkClick => true
  | DEv.recOnclick => true
  | DEv.recReclick => true
  | DEv.probeSubmit _ => true
  | DEv.clickConfirm => true
  | DEv.pressEnter => true
  | _ => false

/-- Screenshot or markup saves, the diagnostic-capture actions. -/
def isCaptureEv : DEv → Bool
  | DEv.noTriggerShot => true
  | DEv.afterClickShot => true
  | DEv.confirmShot => true
  | DEv.confirmHtml => true
  | DEv.timeoutShot => true
  | _ => false

theorem triggerPre_no_click (t : Bool) :
    ∀ ev ∈ triggerPre t, isDownloadClick ev = false := by
  cases t <;> decide

/-- Every trace of download_export is either the lone missing-trigger
screenshot or a click-free prefix followed by the listener registration. -/
theorem downloadExportBody_shape (e : DEnv) :
    downloadExportBody e = ([DEv.noTriggerShot], Except.ok none) ∨
    ∃ c res, downloadExportBody e =
      (triggerPre (searchTriggerFound e) ++ DEv.downloadListener :: c, res) := by
  unfold downloadExportBody
  by_cases h1 : (!searchTriggerFound e && !e.interactive) = true
  · left; rw [if_pos h1]
  · right
    rw [if_neg h1]
    by_cases h2 :
        (!(clickPhase (searchTriggerFound e) e.clickNatOk e.clickJsOk e.clickForceOk).2) = true
    · rw [if_pos h2]; exact ⟨_, _, rfl⟩
    · rw [if_neg h2]
      by_cases h3 : (!e.dlFires) = true
      · rw [if_pos h3]; exact ⟨_, _, rfl⟩
      · rw [if_neg h3]
        by_cases h4 : e.saveRaises = true
        · rw [if_pos h4]; exact ⟨_, _, rfl⟩
        · rw [if_neg h4]; exact ⟨_, _, rfl⟩

theorem downloadExport_shape (e : DEnv) :
    (downloadExport e).1 = [DEv.noTriggerShot] ∨
    ∃ c, (downloadExport e).1 =
      triggerPre (searchTriggerFound e) ++ DEv.downloadListener :: c := by
  rcases downloadExportBody_shape e with h | ⟨c, res, h⟩
  · left; unfold downloadExport; rw [h]
  · right
    unfold downloadExport
    rw [h]
    rcases res with exc | r
    · cases exc
      · exact ⟨c ++ [DEv.timeoutShot], by simp⟩
      · exact ⟨c, rfl⟩
    · exact ⟨c, rfl⟩

theorem take_no_click (a c : List DEv)
    (ha : ∀ ev ∈ a, isDownloadClick ev = false) (n : Nat)
    (hno : DEv.downloadListener ∉ (a ++ DEv.downloadListener :: c).take n) :
    ∀ ev ∈ (a ++ DEv.downloadListener :: c).take n, isDownloadClick ev = false := by
  intro ev hev
  rw [List.take_append_eq_append_take] at hev hno
  rcases List.mem_append.mp hev with h1 | h2
  · exact ha ev (List.take_subset n a h1)
  · rcases hn : n - a.length with _ | k
    · rw [hn] at h2; simp at h2
    · rw [hn, List.take_succ_cons] at hno
      exact absurd (List.mem_append.mpr (Or.inr (List.mem_cons_self ..))) hno

/-- Claim C1: on every execution path of download_export, every prefix of the
event trace that does not yet contain the download-listener registration
contains no click that may produce a download — the export-trigger click and
its fallbacks, the download-link click, the recovery onclick invocation and
re-click, the probe form submit, the confirm click and the keyboard activate
all occur strictly after the listener registration. -/
theorem listener_before_clicks (e : DEnv) (n : Nat)
    (hno : DEv.downloadListener ∉ (downloadExport e).1.take n) :
    ∀ ev ∈ (downloadExport e).1.take n, isDownloadClick ev = false := by
  rcases downloadExport_shape e with h | ⟨c, h⟩
  · rw [h] at hno ⊢
    intro ev hev
    have := List.take_subset n [DEv.noTriggerShot] hev
    simp at this
    subst this
    rfl
  · rw [h] at hno ⊢
    exact take_no_click (triggerPre (searchTriggerFound e)) c
      (triggerPre_no_click (searchTriggerFound e)) n hno

/-- A quiet probe environment: the probe navigation raises immediately. -/
def probeQuiet : ProbeEnv :=
  ⟨false, false, false, false, false, false, false, false, false, false⟩

/-- A run where the trigger resolves, the click works, a modal is found and
confirmed, and the download arrives and saves. -/
def denvModalRun : DEnv :=
  { m1 := some true, m2 := some false, m3found := false, interactive := false,
    clickNatOk := true, clickJsOk := false, clickForceOk := false,
    modalFound := true, dlLinks := [], modalLate := false, reqs := [],
    onclickAttr := false, urlAgenda := false,
    probe0 := probeQuiet, probe1 := probeQuiet, probe2 := probeQuiet,
    probe3 := probeQuiet,
    dlFires := true, confirmFound := true, saveRaises := false, saveExists := true }

/-- Witness for claim C1: in a concrete successful modal run, the first two
trace events (request-listener registration and trigger inspection) precede
the download-listener registration and contain no click. -/
theorem listener_before_clicks_w :
    ((downloadExport denvModalRun).1.take 2).all (fun ev => !(isDownloadClick ev)) = true := by
  have h := listener_before_clicks denvModalRun 2 (by decide)
  rw [List.all_eq_true]
  intro ev hev
  rw [h ev hev]
  rfl

/-- Claim C9 amended: download_export maps every exception its body raises to
the Python return value False (none here) — nothing propagates to the
caller, and a normal result (the saved path, or False when the saved file is
missing) passes through unchanged.  The timeout handler attempts a
screenshot capture; the generic handler returns False with no capture (see
the counterexample). -/
theorem download_export_total (e : DEnv) :
    (∀ exc tr, downloadExportBody e = (tr, Except.error exc) → (downloadExport e).2 = none) ∧
    ((downloadExportBody e).2 = Except.error DExc.timeout →
      DEv.timeoutShot ∈ (downloadExport e).1) ∧
    (∀ r tr, downloadExportBody e = (tr, Except.ok r) → downloadExport e = (tr, r)) := by
  refine ⟨?_, ?_, ?_⟩
  · intro exc tr h
    unfold downloadExport
    rw [h]
    cases exc <;> rfl
  · intro h
    unfold downloadExport
    rcases hb : downloadExportBody e with ⟨tr, res⟩
    rw [hb] at h
    simp at h
    subst h
    simp
  · intro r tr h
    unfold downloadExport
    rw [h]

/-- A run where all three click methods raise, so the re-raise at line 440
escapes to the generic handler. -/
def denvClickFail : DEnv :=
  { m1 := some true, m2 := some false, m3found := false, interactive := false,
    clickNatOk := false, clickJsOk := false, clickForceOk := false,
    modalFound := false, dlLinks := [], modalLate := false, reqs := [],
    onclickAttr := false, urlAgenda := false,
    probe0 := probeQuiet, probe1 := probeQuiet, probe2 := probeQuiet,
    probe3 := probeQuiet,
    dlFires := false, confirmFound := false, saveRaises := false, saveExists := false }

/-- Claim C9 as stated is false on the code at a concrete input: when all
three click methods raise, the rethrown exception reaches the generic
handler (line 1127), which returns False — but its whole trace contains no
screenshot or markup save, so this failure branch attempts no diagnostic
capture before returning False. -/
theorem download_export_capture_cex :
    (downloadExportBody denvClickFail).2 = Except.error DExc.generic ∧
    (downloadExport denvClickFail).2 = none ∧
    (downloadExport denvClickFail).1.all (fun ev => !(isCaptureEv ev)) = true :=
  ⟨rfl, rfl, rfl⟩

/-- A run where the click works, a modal is found, but the download never
arrives: the timeout escapes at the expect_download block exit. -/
def denvTimeoutRun : DEnv :=
  { m1 := some true, m2 := some false, m3found := false, interactive := false,
    clickNatOk := true, clickJsOk := false, clickForceOk := false,
    modalFound := true, dlLinks := [], modalLate := false, reqs := [],
    onclickAttr := false, urlAgenda := false,
    probe0 := probeQuiet, probe1 := probeQuiet, probe2 := probeQuiet,
    probe3 := probeQuiet,
    dlFires := false, confirmFound := false, saveRaises := false, saveExists := false }

/-- Witness for claim C9 (amended): on a concrete timed-out run the function
returns False and the timeout handler attempts its screenshot. -/
theorem download_export_total_w :
    DEv.timeoutShot ∈ (downloadExport denvTimeoutRun).1 ∧
    (downloadExport denvTimeoutRun).2 = none := by
  refine ⟨(download_export_total denvTimeoutRun).2.1 (by rfl), ?_⟩
  exact (download_export_total denvTimeoutRun).1 DExc.timeout
    ((downloadExportBody denvTimeoutRun).1) (by rfl)

/-- The recovery step an event belongs to: 1 replay of captured requests,
2 onclick invocation, 3 script re-click, 4 URL probing.  0 for events outside
the recovery sequence. -/
def recStep : DEv → Nat
  | DEv.recNav _ => 1
  | DEv.recOnclick => 2
  | DEv.recReclick => 3
  | DEv.probeNav _ => 4
  | DEv.probeDetect _ => 4
  | DEv.probeSubmit _ => 4
  | _ => 0

theorem recNavEvs_step (rs : List NetReqEnv) :
    ∀ i, ∀ ev ∈ recNavEvs i rs, recStep ev = 1 := by
  induction rs with
  | nil => intro i ev h; simp [recNavEvs] at h
  | cons r rs ih =>
    intro i ev h
    rw [recNavEvs] at h
    by_cases hd : r.isDl = true
    · rw [if_pos hd] at h
      rcases List.mem_cons.mp h with rfl | h2
      · rfl
      · by_cases hn : r.navOk = true
        · rw [if_pos hn] at h2; simp at h2
        · rw [if_neg hn] at h2; exact ih (i + 1) ev h2
    · rw [if_neg hd] at h
      exact ih (i + 1) ev h

theorem probeOne_sub (i : Nat) (p : ProbeEnv) :
    ∀ ev ∈ (probeOne i p).1,
      ev = DEv.probeNav i ∨ ev = DEv.probeDetect i ∨ ev = DEv.probeSubmit i := by
  unfold probeOne
  split_ifs <;> intro ev h <;> simp at h <;> tauto

theorem probeEvs_step (ps : List ProbeEnv) :
    ∀ i, ∀ ev ∈ probeEvs i ps, recStep ev = 4 := by
  induction ps with
  | nil => intro i ev h; simp [probeEvs] at h
  | cons p ps ih =>
    intro i ev h
    rw [probeEvs] at h
    rcases List.mem_append.mp h with h1 | h2
    · rcases probeOne_sub i p ev h1 with rfl | rfl | rfl <;> rfl
    · by_cases hb : (probeOne i p).2 = true
      · rw [if_pos hb] at h2; simp at h2
      · rw [if_neg hb] at h2; exact ih (i + 1) ev h2

theorem pairwise_le_of_const (l : List Nat) (k : Nat) (h : ∀ x ∈ l, x = k) :
    List.Pairwise (fun a b => a ≤ b) l := by
  induction l with
  | nil => exact List.Pairwise.nil
  | cons x xs ih =>
    refine List.pairwise_cons.mpr ⟨?_, ih (fun y hy => h y (List.mem_cons_of_mem x hy))⟩
    intro y hy
    rw [h x (List.mem_cons_self ..), h y (List.mem_cons_of_mem x hy)]

theorem pairwise_le_append (l1 l2 : List Nat)
    (h1 : List.Pairwise (fun a b => a ≤ b) l1)
    (h2 : List.Pairwise (fun a b => a ≤ b) l2)
    (h : ∀ x ∈ l1, ∀ y ∈ l2, x ≤ y) :
    List.Pairwise (fun a b => a ≤ b) (l1 ++ l2) :=
  List.pairwise_append.mpr ⟨h1, h2, h⟩

theorem probeOne_detect (i j : Nat) (p : ProbeEnv)
    (h : DEv.probeDetect j ∈ (probeOne i p).1) :
    (probeOne i p).1 = [DEv.probeNav i, DEv.probeDetect i] ∧
      (probeOne i p).2 = true ∧ j = i := by
  unfold probeOne at h ⊢
  split_ifs at h ⊢ <;> simp_all

theorem probeEvs_detect_last (ps : List ProbeEnv) :
    ∀ i j, DEv.probeDetect j ∈ probeEvs i ps →
      ∃ l, probeEvs i ps = l ++ [DEv.probeDetect j] := by
  induction ps with
  | nil => intro i j h; simp [probeEvs] at h
  | cons p ps ih =>
    intro i j h
    rw [probeEvs] at h ⊢
    rcases List.mem_append.mp h with h1 | h2
    · obtain ⟨heq, hbrk, rfl⟩ := probeOne_detect i j p h1
      rw [heq, hbrk]
      exact ⟨[DEv.probeNav j], by simp⟩
    · by_cases hb : (probeOne i p).2 = true
      · rw [if_pos hb] at h2; simp at h2
      · rw [if_neg hb] at h2
        obtain ⟨l, hl⟩ := ih (i + 1) j h2
        rw [if_neg hb, hl]
        exact ⟨(probeOne i p).1 ++ l, by simp⟩

theorem midEvs_decomp (e : DEnv) (ct : List DEv)
    (hm : e.modalFound = false) (hl : e.modalLate = false) :
    midEvs e ct =
      (ct ++ [DEv.afterClickShot, DEv.modalScan false] ++ dlLinkEvs (e.dlLinks.take 3)) ++
        recoveryEvs e ++ [DEv.awaitDownload] := by
  unfold midEvs
  rw [hm, hl]
  simp

/-- Claim C5: in the Undetermined state (no modal, no download observed), the
coordinator runs the four recovery steps in the claimed order — replay of
captured download-looking request URLs, onclick invocation, script re-click,
conventional-URL probing with header and content-shape inspection — the
single-event steps at most once each; whenever a probe's headers or content
shape indicate a download, that detection ends the recovery sequence
(nothing follows it); and on every no-modal path with a completed trigger
click the recovery block does appear inside the expect_download window of
the trace. -/
theorem recovery_sequence (e : DEnv) :
    List.Pairwise (fun a b => a ≤ b) ((recoveryEvs e).map recStep) ∧
    (recoveryEvs e).count DEv.recOnclick ≤ 1 ∧
    (recoveryEvs e).count DEv.recReclick ≤ 1 ∧
    (∀ j, DEv.probeDetect j ∈ recoveryEvs e →
      ∃ l, recoveryEvs e = l ++ [DEv.probeDetect j]) ∧
    (e.modalFound = false → e.modalLate = false →
      searchTriggerFound e = true →
      (clickPhase (searchTriggerFound e) e.clickNatOk e.clickJsOk e.clickForceOk).2 = true →
      ∃ a b, (downloadExport e).1 = a ++ recoveryEvs e ++ b) := by
  have hA : ∀ x ∈ (recNavEvs 0 e.reqs).map recStep, x = 1 := by
    intro x hx
    obtain ⟨ev, hev, rfl⟩ := List.mem_map.mp hx
    exact recNavEvs_step e.reqs 0 ev hev
  have hB : ∀ x ∈ ((if e.onclickAttr then [DEv.recOnclick] else []).map recStep), x = 2 := by
    intro x hx
    cases ho : e.onclickAttr <;> rw [ho] at hx <;> simp at hx
    rw [hx]; rfl
  have hC : ∀ x ∈ ((if e.urlAgenda then
      probeEvs 0 [e.probe0, e.probe1, e.probe2, e.probe3] else []).map recStep), x = 4 := by
    intro x hx
    cases hu : e.urlAgenda <;> rw [hu] at hx <;> simp at hx
    obtain ⟨ev, hev, rfl⟩ := hx
    exact probeEvs_step [e.probe0, e.probe1, e.probe2, e.probe3] 0 ev hev
  refine ⟨?_, ?_, ?_, ?_, ?_⟩
  · unfold recoveryEvs
    rw [List.map_append, List.map_append, List.map_append]
    refine pairwise_le_append _ _ (pairwise_le_append _ _ (pairwise_le_append _ _
      (pairwise_le_of_const _ 1 hA) (pairwise_le_of_const _ 2 hB) ?_)
      (by simp [recStep]) ?_) (pairwise_le_of_const _ 4 hC) ?_
    · intro x hx y hy
      rw [hA x hx, hB y hy]
      omega
    · intro x hx y hy
      simp at hy
      subst hy
      show x ≤ 3
      rcases List.mem_append.mp hx with h1 | h2
      · rw [hA x h1]; omega
      · rw [hB x h2]; omega
    · intro x hx y hy
      rw [hC y hy]
      rcases List.mem_append.mp hx with h12 | h3
      · rcases List.mem_append.mp h12 with h1 | h2
        · rw [hA x h1]; omega
        · rw [hB x h2]; omega
      · simp at h3
        subst h3
        show (3 : Nat) ≤ 4
        omega
  · unfold recoveryEvs
    rw [List.count_append, List.count_append, List.count_append]
    have c1 : (recNavEvs 0 e.reqs).count DEv.recOnclick = 0 := by
      rw [List.count_eq_zero]
      intro hmem
      have := recNavEvs_step e.reqs 0 DEv.recOnclick hmem
      simp [recStep] at this
    have c4 : ((if e.urlAgenda then
        probeEvs 0 [e.probe0, e.probe1, e.probe2, e.probe3] else [])).count
          DEv.recOnclick = 0 := by
      rw [List.count_eq_zero]
      intro hmem
      cases hu : e.urlAgenda <;> rw [hu] at hmem <;> simp at hmem
      have := probeEvs_step [e.probe0, e.probe1, e.probe2, e.probe3] 0 DEv.recOnclick hmem
      simp [recStep] at this
    have c2 : ((if e.onclickAttr then [DEv.recOnclick] else [])).count DEv.recOnclick ≤ 1 := by
      cases e.onclickAttr <;> simp
    have c3 : ([DEv.recReclick]).count DEv.recOnclick = 0 := by decide
    omega
  · unfold recoveryEvs
    rw [List.count_append, List.count_append, List.count_append]
    have c1 : (recNavEvs 0 e.reqs).count DEv.recReclick = 0 := by
      rw [List.count_eq_zero]
      intro hmem
      have := recNavEvs_step e.reqs 0 DEv.recReclick hmem
      simp [recStep] at this
    have c4 : ((if e.urlAgenda then
        probeEvs 0 [e.probe0, e.probe1, e.probe2, e.probe3] else [])).count
          DEv.recReclick = 0 := by
      rw [List.count_eq_zero]
      intro hmem
      cases hu : e.urlAgenda <;> rw [hu] at hmem <;> simp at hmem
      have := probeEvs_step [e.probe0, e.probe1, e.probe2, e.probe3] 0 DEv.recReclick hmem
      simp [recStep] at this
    have c2 : ((if e.onclickAttr then [DEv.recOnclick] else [])).count DEv.recReclick = 0 := by
      cases e.onclickAttr <;> decide
    have c3 : ([DEv.recReclick]).count DEv.recReclick = 1 := by decide
    omega
  · intro j hmem
    unfold recoveryEvs at hmem ⊢
    rcases List.mem_append.mp hmem with h123 | h4
    · exfalso
      rcases List.mem_append.mp h123 with h12 | h3
      · rcases List.mem_append.mp h12 with h1 | h2
        · have := recNavEvs_step e.reqs 0 (DEv.probeDetect j) h1
          simp [recStep] at this
        · cases ho : e.onclickAttr <;> rw [ho] at h2 <;> simp at h2
      · simp at h3
    · cases hu : e.urlAgenda <;> rw [hu] at h4
      · simp at h4
      · obtain ⟨l, hl⟩ :=
          probeEvs_detect_last [e.probe0, e.probe1, e.probe2, e.probe3] 0 j h4
        refine ⟨(recNavEvs 0 e.reqs ++
          (if e.onclickAttr then [DEv.recOnclick] else []) ++ [DEv.recReclick]) ++ l, ?_⟩
        simp [hl]
  · intro hm hl htrig hcp
    unfold downloadExport downloadExportBody
    rw [htrig] at hcp ⊢
    have h1 : (!true && !e.interactive) = false := by simp
    rw [h1]
    simp only [Bool.false_eq_true, if_false]
    rw [hcp]
    simp only [Bool.not_true, Bool.false_eq_true, if_false]
    rw [midEvs_decomp e _ hm hl]
    by_cases hd : (!e.dlFires) = true
    · rw [if_pos hd]
      exact ⟨triggerPre true ++ DEv.downloadListener ::
        ((clickPhase true e.clickNatOk e.clickJsOk e.clickForceOk).1 ++
          [DEv.afterClickShot, DEv.modalScan false] ++ dlLinkEvs (e.dlLinks.take 3)),
        [DEv.awaitDownload] ++ [DEv.timeoutShot], by simp⟩
    · rw [if_neg hd]
      by_cases hs : e.saveRaises = true
      · rw [if_pos hs]
        exact ⟨triggerPre true ++ DEv.downloadListener ::
          ((clickPhase true e.clickNatOk e.clickJsOk e.clickForceOk).1 ++
            [DEv.afterClickShot, DEv.modalScan false] ++ dlLinkEvs (e.dlLinks.take 3)),
          [DEv.awaitDownload] ++ postEvs e, by simp⟩
      · rw [if_neg hs]
        exact ⟨triggerPre true ++ DEv.downloadListener ::
          ((clickPhase true e.clickNatOk e.clickJsOk e.clickForceOk).1 ++
            [DEv.afterClickShot, DEv.modalScan false] ++ dlLinkEvs (e.dlLinks.take 3)),
          [DEv.awaitDownload] ++ (postEvs e ++ [DEv.saveFile]), by simp⟩

/-- An Undetermined run: trigger found and clicked, no modal ever appears, a
captured request and an onclick handler exist, the page still shows the
agenda path, all probes quiet, and no download ever fires. -/
def denvRecoveryRun : DEnv :=
  { m1 := some true, m2 := some false, m3found := false, interactive := false,
    clickNatOk := true, clickJsOk := false, clickForceOk := false,
    modalFound := false, dlLinks := [], modalLate := false,
    reqs := [⟨true, true⟩], onclickAttr := true, urlAgenda := true,
    probe0 := probeQuiet, probe1 := probeQuiet, probe2 := probeQuiet,
    probe3 := probeQuiet,
    dlFires := false, confirmFound := false, saveRaises := false, saveExists := false }

/-- A probe whose response carries a spreadsheet content-type. -/
def probeDetecting : ProbeEnv :=
  ⟨true, true, true, false, false, false, false, false, false, false⟩

/-- Like the Undetermined run, but the first probed URL answers with a
spreadsheet content-type. -/
def denvDetectRun : DEnv :=
  { m1 := some true, m2 := some false, m3found := false, interactive := false,
    clickNatOk := true, clickJsOk := false, clickForceOk := false,
    modalFound := false, dlLinks := [], modalLate := false,
    reqs := [⟨true, true⟩], onclickAttr := true, urlAgenda := true,
    probe0 := probeDetecting, probe1 := probeQuiet, probe2 := probeQuiet,
    probe3 := probeQuiet,
    dlFires := false, confirmFound := false, saveRaises := false, saveExists := false }

/-- Witness for claim C5: on a concrete Undetermined run the recovery block
appears inside the trace, and on a run whose first probe detects a download
the detection event closes the recovery sequence. -/
theorem recovery_sequence_w :
    (∃ a b, (downloadExport denvRecoveryRun).1 = a ++ recoveryEvs denvRecoveryRun ++ b) ∧
    (∃ l, recoveryEvs denvDetectRun = l ++ [DEv.probeDetect 0]) :=
  ⟨(recovery_sequence denvRecoveryRun).2.2.2.2 rfl rfl rfl rfl,
   (recovery_sequence denvDetectRun).2.2.2.1 0 (by decide)⟩

/-
===========================================================================
navigate_to_export (lines 236-266) and main (lines 1170-1309)
===========================================================================
-/

/-- navigate_to_export returns True on both URL-check branches (lines
254-260) — a differing final URL is only logged — and False only when the
navigation itself raises (lines 262-266). -/
def navigateToExport (gotoOk : Bool) : Bool := gotoOk

/-- The steps of main, in order. -/
inductive MEv
  | loginCall
  | navCall
  | downloadCall
  | cleanupCall
deriving DecidableEq, Repr

/-- main (lines 1170-1309) as a function of the environments of its steps:
exit status (0 for the success return, 1 for sys.exit(1)) and the calls it
makes.  Missing credentials exit before any browser work (line 1210); a
failed login exits without navigation or download (lines 1245-1256); a
failed navigation exits without download (lines 1259-1267); otherwise
download_export runs and, only on success, cleanup runs and main returns
the path. -/
def mainRun (credsOk : Bool) (le : LEnv) (navGotoOk : Bool) (de : DEnv) : Nat × List MEv :=
  if !credsOk then (1, [])
  else if !(login le).1 then (1, [MEv.loginCall])
  else if !(navigateToExport navGotoOk) then (1, [MEv.loginCall, MEv.navCall])
  else
    match (downloadExport de).2 with
    | some _ => (0, [MEv.loginCall, MEv.navCall, MEv.downloadCall, MEv.cleanupCall])
    | none => (1, [MEv.loginCall, MEv.navCall, MEv.downloadCall])

/-- Claim C6: whenever a known challenge marker is present on the login page
(some CAPTCHA selector's count query returns a positive count), login
returns failure and the submit button is never clicked; the process exits
with status 1, download_export is never entered, and the login attempt is
never retried (every run performs at most one login call). -/
theorem captcha_fails_fast (le : LEnv) (credsOk navGotoOk : Bool) (de : DEnv)
    (h : captchaFound le.captchaQ = true) :
    (login le).1 = false ∧
    LEv.clickSubmit ∉ (login le).2 ∧
    (mainRun credsOk le navGotoOk de).1 = 1 ∧
    MEv.downloadCall ∉ (mainRun credsOk le navGotoOk de).2 ∧
    (mainRun credsOk le navGotoOk de).2.count MEv.loginCall ≤ 1 := by
  have hlog : (login le).1 = false ∧ LEv.clickSubmit ∉ (login le).2 := by
    unfold login
    cases hg : le.gotoOk
    · simp
    · cases hu : le.userFieldFound
      · simp
      · cases hp : le.passFieldPresent
        · simp
        · rw [h]
          simp
  refine ⟨hlog.1, hlog.2, ?_, ?_, ?_⟩ <;>
    · unfold mainRun
      rw [hlog.1]
      cases credsOk <;> simp

/-- A login page showing a challenge marker (the first CAPTCHA selector
counts one element). -/
def lenvCaptcha : LEnv :=
  { gotoOk := true, userFieldFound := true, passFieldPresent := true,
    captchaQ := [some 1, some 0, some 0, some 0, some 0],
    buttons := [StratOutcome.found [⟨1, VisCheck.yes⟩]],
    expectNavOk := true, secondClickOk := true,
    urlHasLogin := false, errorVisible := false,
    mkdirOk := true, htmlSaveOk := true, screenshotOk := true }

/-- An otherwise healthy download environment, unreachable on captcha runs. -/
def denvUnreached : DEnv :=
  { m1 := some true, m2 := some false, m3found := false, interactive := false,
    clickNatOk := true, clickJsOk := false, clickForceOk := false,
    modalFound := true, dlLinks := [], modalLate := false, reqs := [],
    onclickAttr := false, urlAgenda := false,
    probe0 := probeQuiet, probe1 := probeQuiet, probe2 := probeQuiet,
    probe3 := probeQuiet,
    dlFires := true, confirmFound := true, saveRaises := false, saveExists := true }

/-- Witness for claim C6: a concrete captcha run fails before any submit
click, exits 1, and never reaches the download step. -/
theorem captcha_fails_fast_w :
    (login lenvCaptcha).1 = false ∧
    LEv.clickSubmit ∉ (login lenvCaptcha).2 ∧
    (mainRun true lenvCaptcha true denvUnreached).1 = 1 ∧
    MEv.downloadCall ∉ (mainRun true lenvCaptcha true denvUnreached).2 ∧
    (mainRun true lenvCaptcha true denvUnreached).2.count MEv.loginCall ≤ 1 :=
  captcha_fails_fast lenvCaptcha true true denvUnreached (by decide)

end Diario
